import Mathlib

/-!
Shallow embedding of the PassGen password generator
(`src/src/passgen.ts`, whose compiled form is `src/dist/passgen.js`),
together with theorems settling the specification claims.

Strings are modelled as `List Char`; JavaScript `undefined` on optional
fields is modelled as `Option`; random bytes are modelled as an
explicit stream `Nat → Nat`, and every result of the generator carries
the number of random bytes drawn so that "no randomness consumed on
error paths" is a provable statement.
-/

namespace PassGen

/-- Character Set Registry (`CHAR_SETS`, passgen.ts lines 10-16).
The braces of the symbols set are written with `\x7b`/`\x7d` escapes. -/
def CHAR_SETS.lowercase : List Char := "abcdefghijklmnopqrstuvwxyz".toList

def CHAR_SETS.uppercase : List Char := "ABCDEFGHIJKLMNOPQRSTUVWXYZ".toList

def CHAR_SETS.numbers : List Char := "0123456789".toList

def CHAR_SETS.symbols : List Char := "!@#$%^&*()_+-=[]\x7b\x7d|;:,.<>?".toList

def CHAR_SETS.ambiguous : List Char := "il1Lo0O".toList

/-- The fully-resolved generation options: `PasswordOptions` after the
destructuring defaults of `generatePassword` (passgen.ts lines 44-51)
have been applied; this is the spec's `GenerationConfig`. -/
structure GenerationConfig where
  length : Nat
  includeLowercase : Bool
  includeUppercase : Bool
  includeNumbers : Bool
  includeSymbols : Bool
  excludeAmbiguous : Bool
deriving Repr, DecidableEq

/-- The charset composition of `generatePassword` (passgen.ts lines 53-64):
concatenate the included sets in source order; if `excludeAmbiguous`,
run `charset.replace(new RegExp(char, 'g'), '')` for each ambiguous
character in turn.  None of `il1Lo0O` is a regex metacharacter, so each
global replace deletes every occurrence of that single character,
order-preserving, which is `List.filter`. -/
def composeCharset (c : GenerationConfig) : List Char :=
  let charset :=
    (if c.includeLowercase then CHAR_SETS.lowercase else []) ++
    (if c.includeUppercase then CHAR_SETS.uppercase else []) ++
    (if c.includeNumbers then CHAR_SETS.numbers else []) ++
    (if c.includeSymbols then CHAR_SETS.symbols else [])
  if c.excludeAmbiguous then
    CHAR_SETS.ambiguous.foldl (fun acc ch => acc.filter (fun a => a != ch)) charset
  else
    charset

/-- The error thrown by `generatePassword` when the charset is empty
(passgen.ts lines 66-68); the spec's `EmptyAlphabetError`. -/
inductive PassgenError where
  | emptyAlphabet
deriving Repr, DecidableEq

/-- The generation loop of `generatePassword` (passgen.ts lines 66-77)
over a resolved config.  The second component of the result is the
number of random bytes drawn: `randomBytes(length)` runs only after the
empty-charset check, so the error branch draws 0 bytes.  The JS
indexing `charset[array[i] % charset.length]` is always in bounds, so
it is modelled with `List.get` and an in-bounds proof. -/
def generateCore (c : GenerationConfig) (rand : Nat → Nat) :
    Except PassgenError (List Char) × Nat :=
  if h0 : (composeCharset c).length = 0 then
    (Except.error PassgenError.emptyAlphabet, 0)
  else
    (Except.ok (((List.range c.length).map rand).map
      (fun b => (composeCharset c).get
        ⟨b % (composeCharset c).length, Nat.mod_lt b (Nat.pos_of_ne_zero h0)⟩)),
      c.length)

/-- Spec-side Alphabet Composer, following the words of spec section 4.2:
append each set iff its flag is set, in the fixed order lowercase,
uppercase, numbers, symbols; if `excludeAmbiguous`, remove every
occurrence of every character of the ambiguous set, order-preserving.
Used only to compare against `composeCharset`. -/
def composedAlphabetSpec (c : GenerationConfig) : List Char :=
  let base :=
    (if c.includeLowercase then CHAR_SETS.lowercase else []) ++
    (if c.includeUppercase then CHAR_SETS.uppercase else []) ++
    (if c.includeNumbers then CHAR_SETS.numbers else []) ++
    (if c.includeSymbols then CHAR_SETS.symbols else [])
  if c.excludeAmbiguous then
    base.filter (fun a => !(CHAR_SETS.ambiguous.contains a))
  else
    base

/-- The errors of `parseLength` (passgen.ts lines 100-114): the spec's
`InvalidLengthError` (length not a number or < 1) and
`LengthTooLargeError` (length > 256). -/
inductive LengthError where
  | invalidLength
  | lengthTooLarge
deriving Repr, DecidableEq

/-- The value of hexadecimal digit `ch` when it is a digit of base
`radix`, else `none`. -/
def digitValue (radix : Nat) (ch : Char) : Option Nat :=
  let v : Option Nat :=
    if '0' ≤ ch ∧ ch ≤ '9' then some (ch.toNat - '0'.toNat)
    else if 'a' ≤ ch ∧ ch ≤ 'z' then some (ch.toNat - 'a'.toNat + 10)
    else if 'A' ≤ ch ∧ ch ≤ 'Z' then some (ch.toNat - 'A'.toNat + 10)
    else none
  match v with
  | some d => if d < radix then some d else none
  | none => none

/-- JavaScript `StrWhiteSpace` characters (the ASCII ones plus NBSP;
the remaining Unicode space separators are omitted, none of which can
appear in the tool's length arguments). -/
def isJsWhitespace (ch : Char) : Bool :=
  ch = ' ' || ch = '\t' || ch = '\n' || ch = '\r' || ch = '\x0b' ||
    ch = '\x0c' || ch = ' '

/-- JavaScript `parseInt(str)` with no radix argument, as used by
`parseLength` (passgen.ts line 101): skip leading whitespace, read an
optional sign, auto-detect a `0x`/`0X` prefix (base 16, else base 10),
take the longest digit prefix, and return `NaN` (here `none`) when that
prefix is empty.  Values are exact integers here, while JS returns a
float; the two differ only above 2^53, far beyond the 256 cutoff. -/
def parseIntJS (s : String) : Option Int :=
  let l0 := s.toList.dropWhile isJsWhitespace
  let signAndRest : Int × List Char :=
    match l0 with
    | '-' :: rest => (-1, rest)
    | '+' :: rest => (1, rest)
    | _ => (1, l0)
  let radixAndRest : Nat × List Char :=
    match signAndRest.2 with
    | '0' :: 'x' :: rest => (16, rest)
    | '0' :: 'X' :: rest => (16, rest)
    | _ => (10, signAndRest.2)
  let radix := radixAndRest.1
  let digits := radixAndRest.2.takeWhile (fun ch => (digitValue radix ch).isSome)
  if digits.isEmpty then none
  else
    some (signAndRest.1 *
      (digits.foldl (fun acc ch => acc * (radix : Int) +
        (((digitValue radix ch).getD 0 : Nat) : Int)) 0))

/-- `parseLength` (passgen.ts lines 100-114): `parseInt` the string;
`NaN` or a value < 1 is the invalid-length error, a value > 256 is the
too-large error, otherwise the parsed value is returned unchanged.
(The source reports each error on stderr and exits; the embedding
returns the corresponding error value.) -/
def parseLength (lengthStr : String) : Except LengthError Int :=
  match parseIntJS lengthStr with
  | none => Except.error LengthError.invalidLength
  | some length =>
    if length < 1 then Except.error LengthError.invalidLength
    else if length > 256 then Except.error LengthError.lengthTooLarge
    else Except.ok length

/-- The runtime shape of the object literal handed to `generatePassword`
(passgen.ts lines 128-136): each boolean field may be `undefined`
(modelled `Option Bool`), in which case the destructuring defaults of
lines 44-51 apply. -/
structure RawPasswordOptions where
  length : Nat
  includeLowercase : Option Bool
  includeUppercase : Option Bool
  includeNumbers : Option Bool
  includeSymbols : Option Bool
  excludeAmbiguous : Option Bool
deriving Repr, DecidableEq

/-- The destructuring defaults of `generatePassword` (passgen.ts lines
44-51): lowercase, uppercase and numbers default to included, symbols
to excluded, ambiguous-exclusion to off, each applying only when the
corresponding field is `undefined`. -/
def resolveOptions (o : RawPasswordOptions) : GenerationConfig :=
  { length := o.length
    includeLowercase := o.includeLowercase.getD true
    includeUppercase := o.includeUppercase.getD true
    includeNumbers := o.includeNumbers.getD true
    includeSymbols := o.includeSymbols.getD false
    excludeAmbiguous := o.excludeAmbiguous.getD false }

/-- `generatePassword` (passgen.ts lines 43-78): apply the destructuring
defaults, then run the compose-check-generate body. -/
def generatePassword (o : RawPasswordOptions) (rand : Nat → Nat) :
    Except PassgenError (List Char) × Nat :=
  generateCore (resolveOptions o) rand

/-- `CommandOptions` (passgen.ts lines 28-36) as commander produces it
at runtime: the four `--no-X` options always carry a boolean (default
`true`), while the plain `-x, --exclude-ambiguous` flag is `undefined`
unless passed. -/
structure CommandOptions where
  length : String
  lowercase : Bool
  uppercase : Bool
  numbers : Bool
  symbols : Bool
  excludeAmbiguous : Option Bool
  copy : Bool
deriving Repr, DecidableEq

/-- The `Partial<PasswordOptions>` second argument of
`handlePasswordGeneration` (passgen.ts line 123): `none` means the key
is absent from the object literal, so the spread `...passwordOptions`
on line 135 leaves the base field untouched. -/
structure PasswordOverrides where
  length : Option Nat
  includeLowercase : Option Bool
  includeUppercase : Option Bool
  includeNumbers : Option Bool
  includeSymbols : Option Bool
  excludeAmbiguous : Option Bool
deriving Repr, DecidableEq

/-- The empty object literal passed by the default command
(passgen.ts line 166). -/
def emptyOverrides : PasswordOverrides :=
  ⟨none, none, none, none, none, none⟩

/-- The object literal of passgen.ts lines 128-135: base fields taken
from the command options, then the spread `...passwordOptions`
replacing every field whose key the overrides object carries. -/
def mergedRawOptions (options : CommandOptions) (p : PasswordOverrides)
    (len : Nat) : RawPasswordOptions :=
  { length := p.length.getD len
    includeLowercase := some (p.includeLowercase.getD options.lowercase)
    includeUppercase := some (p.includeUppercase.getD options.uppercase)
    includeNumbers := some (p.includeNumbers.getD options.numbers)
    includeSymbols := some (p.includeSymbols.getD options.symbols)
    excludeAmbiguous :=
      match p.excludeAmbiguous with
      | some b => some b
      | none => options.excludeAmbiguous }

/-- The resolved configuration a `handlePasswordGeneration` call hands
to the generation loop: parse the length, merge base options with the
overrides, and apply the destructuring defaults. -/
def effectiveConfig (options : CommandOptions) (p : PasswordOverrides) :
    Except LengthError GenerationConfig :=
  match parseLength options.length with
  | Except.error e => Except.error e
  | Except.ok len => Except.ok (resolveOptions (mergedRawOptions options p len.toNat))

/-- The errors observable from `handlePasswordGeneration`
(passgen.ts lines 121-148): a length-validation failure or a
generation failure. -/
inductive CliError where
  | lengthError : LengthError → CliError
  | genError : PassgenError → CliError
deriving Repr, DecidableEq

/-- `handlePasswordGeneration` (passgen.ts lines 121-148):
`parseLength` runs first, so a length error draws no random bytes;
then `generatePassword` runs on the merged options.  The second
component again counts the random bytes drawn. -/
def handlePasswordGeneration (options : CommandOptions)
    (p : PasswordOverrides) (rand : Nat → Nat) :
    Except CliError (List Char) × Nat :=
  match effectiveConfig options p with
  | Except.error e => (Except.error (CliError.lengthError e), 0)
  | Except.ok cfg =>
    match generateCore cfg rand with
    | (Except.error e, n) => (Except.error (CliError.genError e), n)
    | (Except.ok pw, n) => (Except.ok pw, n)

/-- The default command with no flags passed (passgen.ts lines
157-167): commander's `--length` default is `"16"`; each `--no-X`
option makes `options.X` default to `true` (so symbols are included
unless `--no-symbols` is passed, as the README's "includes symbols by
default" documents); the plain `-x` flag is `undefined`; `--no-copy`
makes `copy` default `true`. -/
def defaultCommandOptions : CommandOptions :=
  { length := "16", lowercase := true, uppercase := true, numbers := true
    symbols := true, excludeAmbiguous := none, copy := true }

/-- The `simple` command with no flags (passgen.ts lines 170-193). -/
def simpleCommandOptions : CommandOptions :=
  { length := "12", lowercase := true, uppercase := true, numbers := true
    symbols := true, excludeAmbiguous := some true, copy := true }

/-- The overrides object the `simple` command passes
(passgen.ts lines 186-192). -/
def simpleOverrides : PasswordOverrides :=
  ⟨none, some true, some true, some true, some true, some true⟩

/-- The `strong` command with no flags (passgen.ts lines 195-218). -/
def strongCommandOptions : CommandOptions :=
  { length := "20", lowercase := true, uppercase := true, numbers := true
    symbols := true, excludeAmbiguous := some false, copy := true }

/-- The overrides object the `strong` command passes
(passgen.ts lines 211-217). -/
def strongOverrides : PasswordOverrides :=
  ⟨none, some true, some true, some true, some true, some false⟩

/-- The `pin` command with no flags (passgen.ts lines 220-243). -/
def pinCommandOptions : CommandOptions :=
  { length := "6", lowercase := false, uppercase := false, numbers := true
    symbols := false, excludeAmbiguous := some false, copy := true }

/-- The overrides object the `pin` command passes
(passgen.ts lines 236-242). -/
def pinOverrides : PasswordOverrides :=
  ⟨none, some false, some false, some true, some false, some false⟩

/-- Console output split by stream. -/
structure ConsoleOutput where
  stdoutLines : List String
  stderrLines : List String
deriving Repr, DecidableEq

/-- `copyToClipboard` (passgen.ts lines 84-93): on clipboard success,
print the password and the success note; on clipboard failure, report
the failure on stderr and still print the generated password on
stdout. -/
def copyToClipboard (text : String) (clipboardOk : Bool)
    (errMsg : String) : ConsoleOutput :=
  if clipboardOk then
    { stdoutLines := ["Generated password: " ++ text,
        "✅ Password copied to clipboard!"]
      stderrLines := [] }
  else
    { stdoutLines := ["Generated password: " ++ text]
      stderrLines := ["❌ Failed to copy to clipboard: " ++ errMsg] }

/-! Helper lemmas shared by the claim theorems. -/

lemma generateCore_ok (c : GenerationConfig) (rand : Nat → Nat)
    (h0 : (composeCharset c).length ≠ 0) :
    generateCore c rand =
      (Except.ok (((List.range c.length).map rand).map
        (fun b => (composeCharset c).get
          ⟨b % (composeCharset c).length, Nat.mod_lt b (Nat.pos_of_ne_zero h0)⟩)),
        c.length) :=
  dif_neg h0

lemma generateCore_spec (c : GenerationConfig) (rand : Nat → Nat)
    (h0 : (composeCharset c).length ≠ 0) :
    ∃ pw : List Char,
      generateCore c rand = (Except.ok pw, c.length) ∧
      pw.length = c.length ∧
      (∀ i, i < c.length →
        pw.get? i = (composeCharset c).get? (rand i % (composeCharset c).length)) ∧
      (∀ ch ∈ pw, ch ∈ composeCharset c) := by
  refine ⟨_, generateCore_ok c rand h0, ?_, ?_, ?_⟩
  · simp
  · intro i hi
    rw [List.get?_eq_getElem?, List.get?_eq_getElem?]
    rw [List.getElem?_map, List.getElem?_map, List.getElem?_range hi]
    simp [List.getElem?_eq_getElem (Nat.mod_lt (rand i) (Nat.pos_of_ne_zero h0))]
  · intro ch hch
    simp only [List.mem_map] at hch
    obtain ⟨b, hb, rfl⟩ := hch
    exact List.get_mem _ _ _

lemma generateCore_congr (c : GenerationConfig) (r1 r2 : Nat → Nat)
    (h : ∀ i, i < c.length → r1 i = r2 i) :
    generateCore c r1 = generateCore c r2 := by
  unfold generateCore
  split
  · rfl
  · have hmap : (List.range c.length).map r1 = (List.range c.length).map r2 :=
      List.map_congr_left (fun i hi => h i (List.mem_range.mp hi))
    rw [hmap]

lemma generateCore_empty (c : GenerationConfig) (rand : Nat → Nat)
    (h : composeCharset c = []) :
    generateCore c rand = (Except.error PassgenError.emptyAlphabet, 0) := by
  unfold generateCore
  rw [dif_pos (by simp [h])]

lemma generateCore_error (c : GenerationConfig) (rand : Nat → Nat)
    (e : PassgenError) (n : Nat)
    (h : generateCore c rand = (Except.error e, n)) : n = 0 := by
  unfold generateCore at h
  split at h
  · exact (Prod.mk.injEq _ _ _ _ ▸ h).symm.1 ▸ rfl
  · simp at h

lemma foldl_filter (amb : List Char) (l : List Char) :
    amb.foldl (fun acc ch => acc.filter (fun a => a != ch)) l
      = l.filter (fun a => !(amb.contains a)) := by
  induction amb generalizing l with
  | nil => simp
  | cons ch t ih =>
    rw [List.foldl_cons, ih, List.filter_filter]
    congr 1
    funext a
    simp [List.contains_cons, Bool.and_comm, bne, Bool.beq_eq_decide_eq]

/-! The claim theorems. -/

/-- Claim C1: for every configuration whose composed alphabet is
non-empty and whose length is in [1,256], `generatePassword` returns a
string of exactly `length` characters, each a member of the composed
alphabet for that configuration. -/
theorem generatePassword_length_membership
    (o : RawPasswordOptions) (rand : Nat → Nat)
    (halpha : composeCharset (resolveOptions o) ≠ [])
    (hlen1 : 1 ≤ o.length) (hlen2 : o.length ≤ 256) :
    ∃ pw : List Char,
      generatePassword o rand = (Except.ok pw, o.length) ∧
      pw.length = o.length ∧
      ∀ ch ∈ pw, ch ∈ composeCharset (resolveOptions o) := by
  have h0 : (composeCharset (resolveOptions o)).length ≠ 0 := by
    simpa [List.length_eq_zero] using halpha
  obtain ⟨pw, hA, hB, _, hD⟩ := generateCore_spec (resolveOptions o) rand h0
  exact ⟨pw, hA, hB, hD⟩

/-- Witness for C1 at a concrete lowercase-only configuration. -/
theorem generatePassword_length_membership_witness :
    composeCharset (resolveOptions
        ⟨4, some true, some false, some false, some false, some false⟩) ≠ [] ∧
    ∃ pw : List Char,
      generatePassword ⟨4, some true, some false, some false, some false, some false⟩
          (fun i => 7 * i) = (Except.ok pw, 4) ∧
      pw.length = 4 ∧
      ∀ ch ∈ pw, ch ∈ composeCharset (resolveOptions
        ⟨4, some true, some false, some false, some false, some false⟩) :=
  ⟨by decide,
   generatePassword_length_membership
     ⟨4, some true, some false, some false, some false, some false⟩
     (fun i => 7 * i) (by decide) (by decide) (by decide)⟩

/-- Claim C2: the composed alphabet is the concatenation, in the fixed
order lowercase, uppercase, numbers, symbols, of the sets whose flags
are set, and when `excludeAmbiguous` holds every occurrence of every
character of `il1Lo0O` is removed from that concatenation,
order-preserving (`composedAlphabetSpec` states the spec's words). -/
theorem composeCharset_eq_specAlphabet (c : GenerationConfig) :
    composeCharset c = composedAlphabetSpec c := by
  obtain ⟨len, il, iu, inn, is, xa⟩ := c
  cases xa
  · rfl
  · exact foldl_filter CHAR_SETS.ambiguous _

/-- Witness for C2 at a concrete ambiguity-stripping configuration. -/
theorem composeCharset_eq_specAlphabet_witness :
    composeCharset ⟨8, true, true, false, false, true⟩ =
      composedAlphabetSpec ⟨8, true, true, false, false, true⟩ :=
  composeCharset_eq_specAlphabet ⟨8, true, true, false, false, true⟩

/-- Claim C3: an empty composed alphabet (in particular, all four
inclusion flags false) makes generation fail with the empty-alphabet
error after drawing 0 random bytes, and every error result of
`handlePasswordGeneration` (length validation included) draws 0 random
bytes. -/
theorem errorPaths_consume_no_randomness :
    (∀ (c : GenerationConfig) (rand : Nat → Nat), composeCharset c = [] →
      generateCore c rand = (Except.error PassgenError.emptyAlphabet, 0)) ∧
    (∀ c : GenerationConfig,
      c.includeLowercase = false → c.includeUppercase = false →
      c.includeNumbers = false → c.includeSymbols = false →
      composeCharset c = []) ∧
    (∀ (options : CommandOptions) (p : PasswordOverrides) (rand : Nat → Nat)
      (e : CliError),
      (handlePasswordGeneration options p rand).1 = Except.error e →
      (handlePasswordGeneration options p rand).2 = 0) := by
  refine ⟨fun c rand h => generateCore_empty c rand h, ?_, ?_⟩
  · intro c h1 h2 h3 h4
    obtain ⟨len, il, iu, inn, is, xa⟩ := c
    simp only at h1 h2 h3 h4
    subst h1 h2 h3 h4
    cases xa <;> rfl
  · intro options p rand e herr
    unfold handlePasswordGeneration at herr ⊢
    cases hec : effectiveConfig options p with
    | error e1 => simp [hec]
    | ok cfg =>
      rw [hec] at herr
      cases hg : generateCore cfg rand with
      | mk r n =>
        cases r with
        | error e2 =>
          simp only [hg]
          exact generateCore_error cfg rand e2 n hg
        | ok pw => simp [hg] at herr

/-- Witness for C3: the all-flags-false configuration, and an invalid
length string, each drawing 0 random bytes. -/
theorem errorPaths_consume_no_randomness_witness :
    generateCore ⟨5, false, false, false, false, false⟩ (fun _ => 0) =
      (Except.error PassgenError.emptyAlphabet, 0) ∧
    composeCharset ⟨5, false, false, false, false, false⟩ = [] ∧
    (handlePasswordGeneration
      { length := "abc", lowercase := true, uppercase := true, numbers := true
        symbols := true, excludeAmbiguous := none, copy := true }
      emptyOverrides (fun _ => 0)).2 = 0 :=
  ⟨errorPaths_consume_no_randomness.1 _ _ (by decide),
   errorPaths_consume_no_randomness.2.1 _ rfl rfl rfl rfl,
   errorPaths_consume_no_randomness.2.2 _ _ _
     (CliError.lengthError LengthError.invalidLength) rfl⟩

/-- Claim C4 counterexample: `parseLength "12.5"` succeeds with the
truncated value 12, so a non-integer numeric string is not rejected. -/
theorem parseLength_truncates_fractional : parseLength "12.5" = Except.ok 12 := by
  rfl

/-- Claim C4 as amended: `parseLength` applies JavaScript `parseInt`
semantics; it fails with the invalid-length error when `parseInt`
yields `NaN` or a value below 1, fails with the too-large error above
256, and otherwise returns the `parseInt` value unchanged — so a
fractional string is truncated by `parseInt` and accepted. -/
theorem parseLength_spec (s : String) :
    (parseIntJS s = none → parseLength s = Except.error LengthError.invalidLength) ∧
    (∀ n : Int, parseIntJS s = some n → n < 1 →
      parseLength s = Except.error LengthError.invalidLength) ∧
    (∀ n : Int, parseIntJS s = some n → 256 < n →
      parseLength s = Except.error LengthError.lengthTooLarge) ∧
    (∀ n : Int, parseIntJS s = some n → 1 ≤ n → n ≤ 256 →
      parseLength s = Except.ok n) := by
  refine ⟨?_, ?_, ?_, ?_⟩
  · intro h; simp [parseLength, h]
  · intro n hn hlt; simp [parseLength, hn, hlt]
  · intro n hn hgt
    have h1 : ¬n < 1 := by omega
    simp [parseLength, hn, h1, hgt]
  · intro n hn h1 h2
    have h1' : ¬n < 1 := by omega
    have h2' : ¬n > 256 := by omega
    simp [parseLength, hn, h1', h2']

/-- Witness for the amended C4 at the truncating input. -/
theorem parseLength_spec_witness : parseLength "12.5" = Except.ok 12 :=
  (parseLength_spec "12.5").2.2.2 12 rfl (by decide) (by decide)

/-- Claim C5: the five concrete length validations behave exactly as
specified. -/
theorem parseLength_concrete_cases :
    parseLength "0" = Except.error LengthError.invalidLength ∧
    parseLength "-5" = Except.error LengthError.invalidLength ∧
    parseLength "abc" = Except.error LengthError.invalidLength ∧
    parseLength "257" = Except.error LengthError.lengthTooLarge ∧
    parseLength "256" = Except.ok 256 :=
  ⟨rfl, rfl, rfl, rfl, rfl⟩

/-- Claim C6: with a non-empty alphabet the generator draws exactly
`length` random bytes, and the output character at position `i` is the
alphabet character at index `rand i mod alphabetLength`. -/
theorem generator_mod_indexing
    (c : GenerationConfig) (rand : Nat → Nat)
    (halpha : composeCharset c ≠ []) :
    ∃ pw : List Char,
      generateCore c rand = (Except.ok pw, c.length) ∧
      pw.length = c.length ∧
      ∀ i, i < c.length →
        pw.get? i = (composeCharset c).get? (rand i % (composeCharset c).length) := by
  have h0 : (composeCharset c).length ≠ 0 := by
    simpa [List.length_eq_zero] using halpha
  obtain ⟨pw, hA, hB, hC, _⟩ := generateCore_spec c rand h0
  exact ⟨pw, hA, hB, hC⟩

/-- Witness for C6 at a 3-digit numbers-only configuration with bytes
above 255 mod-reduced by the alphabet size. -/
theorem generator_mod_indexing_witness :
    composeCharset ⟨3, false, false, true, false, false⟩ ≠ [] ∧
    ∃ pw : List Char,
      generateCore ⟨3, false, false, true, false, false⟩ (fun i => 200 + i) =
        (Except.ok pw, 3) ∧
      pw.length = 3 ∧
      ∀ i, i < 3 →
        pw.get? i = (composeCharset ⟨3, false, false, true, false, false⟩).get?
          ((200 + i) % (composeCharset ⟨3, false, false, true, false, false⟩).length) :=
  ⟨by decide,
   generator_mod_indexing ⟨3, false, false, true, false, false⟩
     (fun i => 200 + i) (by decide)⟩

/-- Claim C7 counterexample: with no preset and no flags, the effective
configuration includes symbols (the TS `--no-symbols` option defaults
to `true`), contradicting "excludes symbols". -/
theorem defaultCommand_includesSymbols :
    (effectiveConfig defaultCommandOptions emptyOverrides).map
      GenerationConfig.includeSymbols = Except.ok true := by
  rfl

/-- Claim C7 as amended: with no preset and no overrides, the effective
configuration has length 16, includes lowercase, uppercase, numbers and
symbols, and has ambiguous-exclusion off. -/
theorem defaultCommand_effectiveConfig :
    effectiveConfig defaultCommandOptions emptyOverrides =
      Except.ok ⟨16, true, true, true, true, false⟩ := by
  rfl

/-- Claim C8: the three presets resolve to exactly the specified
configurations, and the pin preset generates 6 characters drawn only
from the digits 0-9. -/
theorem preset_commands_configs :
    effectiveConfig simpleCommandOptions simpleOverrides =
      Except.ok ⟨12, true, true, true, true, true⟩ ∧
    effectiveConfig strongCommandOptions strongOverrides =
      Except.ok ⟨20, true, true, true, true, false⟩ ∧
    effectiveConfig pinCommandOptions pinOverrides =
      Except.ok ⟨6, false, false, true, false, false⟩ ∧
    ∀ rand : Nat → Nat, ∃ pw : List Char,
      generateCore ⟨6, false, false, true, false, false⟩ rand = (Except.ok pw, 6) ∧
      pw.length = 6 ∧ ∀ ch ∈ pw, ch ∈ CHAR_SETS.numbers := by
  refine ⟨rfl, rfl, rfl, ?_⟩
  intro rand
  obtain ⟨pw, h1, h2, _, h4⟩ :=
    generateCore_spec ⟨6, false, false, true, false, false⟩ rand (by decide)
  have hcs : composeCharset ⟨6, false, false, true, false, false⟩ =
      CHAR_SETS.numbers := rfl
  rw [hcs] at h4
  exact ⟨pw, h1, h2, h4⟩

/-- Witness for C8: the pin generation conclusion at a concrete random
stream. -/
theorem preset_commands_configs_witness :
    ∃ pw : List Char,
      generateCore ⟨6, false, false, true, false, false⟩ (fun i => 37 * i) =
        (Except.ok pw, 6) ∧
      pw.length = 6 ∧ ∀ ch ∈ pw, ch ∈ CHAR_SETS.numbers :=
  preset_commands_configs.2.2.2 (fun i => 37 * i)

/-- Claim C9: when the clipboard write fails, the already-generated
password is still printed to stdout rather than discarded. -/
theorem clipboardFailure_surfaces_password (text errMsg : String) :
    ("Generated password: " ++ text) ∈
      (copyToClipboard text false errMsg).stdoutLines := by
  simp [copyToClipboard]

/-- Witness for C9 at a concrete password and clipboard error. -/
theorem clipboardFailure_surfaces_password_witness :
    ("Generated password: " ++ "s3cret") ∈
      (copyToClipboard "s3cret" false "no display server").stdoutLines :=
  clipboardFailure_surfaces_password "s3cret" "no display server"

/-- Claim C10: `generatePassword` is a deterministic function of the
configuration and the random bytes it consumes: two runs whose random
streams agree on the `length` consumed positions return the same
result. -/
theorem generatePassword_deterministic
    (o : RawPasswordOptions) (r1 r2 : Nat → Nat)
    (h : ∀ i, i < o.length → r1 i = r2 i) :
    generatePassword o r1 = generatePassword o r2 :=
  generateCore_congr (resolveOptions o) r1 r2 h

/-- Witness for C10: two streams that agree on the two consumed
positions but differ beyond them give identical passwords. -/
theorem generatePassword_deterministic_witness :
    generatePassword ⟨2, some true, some true, some true, some false, some false⟩
        (fun _ => 0) =
      generatePassword ⟨2, some true, some true, some true, some false, some false⟩
        (fun i => if i < 2 then 0 else 9) :=
  generatePassword_deterministic
    ⟨2, some true, some true, some true, some false, some false⟩
    (fun _ => 0) (fun i => if i < 2 then 0 else 9)
    (fun _ hi => (if_pos hi).symm)

end PassGen
